import Mathlib

/-!
Verification of the reconciliation engine of `db_validation.py`.

Cells of a dataframe are nullable strings: `none` models the `np.nan`
null marker produced by `pd.read_csv(..., dtype=object)`, `some s` a
string cell.  A row is an association list from column name to cell,
a dataset a list of rows.
-/

namespace DbValidation

/-- A cell value: `none` is the canonical null marker (`np.nan`). -/
abbrev Value := Option String

/-- A row: ordered mapping from column name to cell value. -/
abbrev Row := List (String × Value)

/-- `str(x)` on a cell: `np.nan` prints as `"nan"`. -/
def strOf : Value → String
  | none => "nan"
  | some s => s

/-- Look a column up in a row; an absent column reads as null. -/
def getCol (r : Row) (c : String) : Value :=
  match r.find? (fun p => p.1 = c) with
  | some p => p.2
  | none => none

/-! ### Key-based join (`compare` / `unique_records`, lines 217-263)

`table.source_df.merge(table.snow_df, how='outer', on=table.primary_key,
indicator=True)` joins on equality of the primary-key column tuple
(pandas matches NaN join keys with each other, so plain equality of
`Option String` tuples is the faithful model).  `_merge == 'both'` rows
are one pair per (source row, snowflake row) with equal keys — a
cross-product per duplicated key group.  `left_only` / `right_only`
rows are the rows of one side whose key has no match on the other. -/

/-- The primary-key tuple of a row. -/
def keyOf (pk : List String) (r : Row) : List Value :=
  pk.map (getCol r)

/-- Equality of primary-key tuples, as the merge compares them. -/
def keyEq (pk : List String) (r s : Row) : Bool :=
  decide (keyOf pk r = keyOf pk s)

/-- The `_merge == 'both'` partition of the outer merge: one pair per
matching (source row, snowflake row). -/
def mergedBoth (pk : List String) (src snow : List Row) : List (Row × Row) :=
  src.flatMap (fun r => (snow.filter (keyEq pk r)).map (fun s => (r, s)))

/-- The `_merge == 'left_only'` partition: source rows whose key is
absent from the snowflake side. -/
def leftOnly (pk : List String) (src snow : List Row) : List Row :=
  src.filter (fun r => !(snow.any (keyEq pk r)))

/-- The `_merge == 'right_only'` partition: snowflake rows whose key is
absent from the source side. -/
def rightOnly (pk : List String) (src snow : List Row) : List Row :=
  snow.filter (fun s => !(src.any (fun r => keyEq pk r s)))

/-! ### Duplicate detection (`compare` lines 221-223)

`df[df.duplicated(table.primary_key)]` keeps the rows pandas flags with
`keep='first'` semantics: a row is flagged iff its key tuple already
occurred in an earlier row of the same dataframe. -/

/-- `duplicated` accumulator: `seen` holds the key tuples of the rows
already scanned. -/
def duplicatedAux (pk : List String) (seen : List (List Value)) :
    List Row → List Row
  | [] => []
  | r :: rs =>
      if keyOf pk r ∈ seen then r :: duplicatedAux pk seen rs
      else duplicatedAux pk (keyOf pk r :: seen) rs

/-- `df[df.duplicated(pk)]`: the rows whose key occurred earlier. -/
def duplicatedRows (pk : List String) (df : List Row) : List Row :=
  duplicatedAux pk [] df

/-! ### Python rounding -/

/-- Python 3 `round` to an integer: half-to-even rounding, modelled
over exact rationals. -/
def pyRound (q : ℚ) : ℤ :=
  if q - ⌊q⌋ < 1/2 then ⌊q⌋
  else if 1/2 < q - ⌊q⌋ then ⌊q⌋ + 1
  else if ⌊q⌋ % 2 = 0 then ⌊q⌋ else ⌊q⌋ + 1

/-- Python `round(q, n)`: round to `n` decimal places. -/
def pyRoundTo (q : ℚ) (n : ℕ) : ℚ :=
  (pyRound (q * 10 ^ n) : ℚ) / 10 ^ n

/-! ### Overlap analyzer (`column_overlap`, lines 296-314) -/

/-- Pandas cell equality `df[c_x] == df[c_y]`: a null (`NaN`) cell
never compares equal to anything, itself included. -/
def cellEq : Value → Value → Bool
  | some a, some b => a == b
  | _, _ => false

/-- Number of matched pairs whose two sides agree on column `c`
(`len(overlap_df.index)`). -/
def agreeCount (matched : List (Row × Row)) (c : String) : ℕ :=
  matched.countP (fun p => cellEq (getCol p.1 c) (getCol p.2 c))

/-- One column of line 309:
`round(len(overlap_df.index) / len(df.index), 2) * 100.00`;
`len(df.index) = 0` raises `ZeroDivisionError`. -/
def columnPct (matched : List (Row × Row)) (c : String) :
    Except String ℚ :=
  if matched.length = 0 then .error "ZeroDivisionError"
  else .ok (pyRoundTo ((agreeCount matched c : ℚ) / matched.length) 2 * 100)

/-- `column_overlap`, up to the final string formatting: for every
common column outside the primary key compute the rounded agreement
percentage, then report the pairs sorted ascending by percentage
(`sorted(column_match_dict.items(), key=lambda item: item[1])`). -/
def column_overlap (matched : List (Row × Row))
    (commonColumns pk : List String) :
    Except String (List (String × ℚ)) := do
  let pairs ← (commonColumns.filter (fun c => !(pk.contains c))).mapM
    (fun c => do pure (c, ← columnPct matched c))
  pure (List.insertionSort (fun p q => p.2 ≤ q.2) pairs)

/-! ### Metrics (`report`, line 340) -/

/-- The percent-variance of report line 340:
`abs(tot_source - tot_snow) / ((tot_source + tot_snow) / 2) * 100`;
when both counts are zero the divisor is `0.0` and the division raises
`ZeroDivisionError`. -/
def percentVariance (totSource totSnow : ℕ) : Except String ℚ :=
  if totSource + totSnow = 0 then .error "ZeroDivisionError"
  else .ok (|(totSource : ℚ) - totSnow| / (((totSource : ℚ) + totSnow) / 2) * 100)

/-! ### Transformation rule functions (lines 353-405) -/

/-- `strip_rule`: remove every occurrence of `value` from `str(x)`;
an empty result becomes the null marker. -/
def strip_rule (x : Value) (value : String) : Value :=
  let s := (strOf x).replace value ""
  if s = "" then none else some s

/-- Is `a` a length-`|a|` initial segment of `b`? -/
def leadsWith : List Char → List Char → Bool
  | [], _ => true
  | _ :: _, [] => false
  | a :: as, b :: bs => a = b && leadsWith as bs

/-- Does `needle` occur contiguously inside the second list? -/
def containsSeq (needle : List Char) : List Char → Bool
  | [] => leadsWith needle []
  | h :: t => leadsWith needle (h :: t) || containsSeq needle t

/-- Python `needle in hay` on strings: contiguous substring test. -/
def strContains (hay needle : String) : Bool :=
  containsSeq needle.toList hay.toList

/-- `none_rule` (lines 395-405): map null-like tokens (any value whose
`str` contains `"None"` — which the string `"nan"` of an actual null
does not — the empty string, `"NA"`, `"Softbank"`) to the null marker;
every other value passes through unchanged. -/
def none_rule (x : Value) : Value :=
  if strContains (strOf x) "None" then none
  else if strOf x = "" then none
  else if strOf x = "NA" then none
  else if strOf x = "Softbank" then none
  else x

/-- Value of an unsigned decimal digit string. -/
def digitsToNat (l : List Char) : ℕ :=
  l.foldl (fun a ch => a * 10 + (ch.toNat - 48)) 0

/-- Python `str.isnumeric` restricted to ASCII data: nonempty and all
digits. -/
def isnumeric (s : String) : Bool :=
  s ≠ "" && s.toList.all Char.isDigit

/-- `cast_int` (lines 375-387).  The guard `x == np.nan` is `False`
for every `x` (`NaN` compares unequal even to itself), so a null cell
falls through to `x.lstrip('0')`, and a float has no `lstrip`: the
call raises `AttributeError`.  On a string: strip leading `'0'`
characters, an empty remainder becomes `"0"`, a numeric remainder
parses as an integer, anything else yields `0`. -/
def cast_int (x : Value) : Except String ℤ :=
  match x with
  | none => .error "AttributeError"
  | some s =>
      let s1 := String.mk (s.toList.dropWhile (fun ch => ch = '0'))
      let s2 := if s1 = "" then "0" else s1
      if isnumeric s2 then .ok (digitsToNat s2.toList : ℤ)
      else .ok 0

/-- Unsigned decimal literal: digits with an optional single dot. -/
def parseUnsignedDec (l : List Char) : Option ℚ :=
  let ip := l.takeWhile (fun ch => ch ≠ '.')
  match l.dropWhile (fun ch => ch ≠ '.') with
  | [] =>
      if ip ≠ [] ∧ ip.all Char.isDigit then some (digitsToNat ip)
      else none
  | _ :: fp =>
      if (ip ≠ [] ∨ fp ≠ []) ∧ ip.all Char.isDigit ∧ fp.all Char.isDigit then
        some ((digitsToNat ip : ℚ) + (digitsToNat fp : ℚ) / 10 ^ fp.length)
      else none

/-- Python `float()` on a plain decimal literal (optional sign,
digits, optional fractional part).  Other accepted spellings
(exponents, infinities, surrounding whitespace) do not occur in this
repository's fixtures and are modelled as the same `ValueError` as a
non-numeric string. -/
def parseDec (s : String) : Option ℚ :=
  match s.toList with
  | '-' :: l => (parseUnsignedDec l).map (fun q => -q)
  | '+' :: l => parseUnsignedDec l
  | l => parseUnsignedDec l

/-- `round_rule` (lines 389-393).  The guard `x == np.nan` is `False`
for every `x`, so only the literal string `"None"` is caught; an
actual null cell reaches `round(float(nan), value)`, which returns
`NaN` — modelled as `.ok none`.  A parseable string is rounded to
`value` decimal places; a string `float()` rejects raises
`ValueError`. -/
def round_rule (x : Value) (value : ℕ) : Except String (Option ℚ) :=
  match x with
  | none => .ok none
  | some s =>
      if s = "None" then .ok (some (pyRoundTo 0 value))
      else
        match parseDec s with
        | some q => .ok (some (pyRoundTo q value))
        | none => .error "ValueError"

/-! ### Table model (`DB_Table.__init__`, lines 426-451) -/

/-- `df.rename(columns=mapping)`: rename each source column through
the mapping, leaving unmapped columns unchanged. -/
def renameColumns (mapping : List (String × String))
    (cols : List String) : List String :=
  cols.map (fun c =>
    match mapping.find? (fun p => p.1 = c) with
    | some p => p.2
    | none => c)

/-- Lines 436-440 of `DB_Table.__init__`:
`list(set(source_df.columns) & set(snow_df.columns))`, then remove
`'TSTAMP'` when present.  The configured rules run afterwards and
rewrite column values only, never column names. -/
def commonColumnsOf (mapping : List (String × String))
    (srcCols snowCols : List String) : List String :=
  (((renameColumns mapping srcCols).dedup).filter
      (fun c => snowCols.contains c)).erase "TSTAMP"

/-! ## Theorems -/

/-- C8: for every constructed table the computed `common_columns` is
contained in the mapped source column set and in the snowflake column
set, and never contains `TSTAMP`, regardless of the configured
mapping. -/
theorem common_columns_invariant (mapping : List (String × String))
    (srcCols snowCols : List String) :
    (∀ c ∈ commonColumnsOf mapping srcCols snowCols,
        c ∈ renameColumns mapping srcCols ∧ c ∈ snowCols) ∧
      "TSTAMP" ∉ commonColumnsOf mapping srcCols snowCols := by
  have hnd : ((renameColumns mapping srcCols).dedup.filter
      (fun c => snowCols.contains c)).Nodup :=
    (List.nodup_dedup _).filter _
  constructor
  · intro c hc
    unfold commonColumnsOf at hc
    have hc' := List.mem_of_mem_erase hc
    rw [List.mem_filter] at hc'
    exact ⟨List.mem_dedup.mp hc'.1, by simpa using hc'.2⟩
  · intro h
    unfold commonColumnsOf at h
    rw [hnd.mem_erase_iff] at h
    exact h.1 rfl

/-- Closed witness for `common_columns_invariant` at a concrete
configuration. -/
theorem common_columns_invariant_witness :
    "A" ∈ commonColumnsOf [("a", "A")] ["a", "TSTAMP"] ["A", "TSTAMP"] ∧
      ("A" ∈ renameColumns [("a", "A")] ["a", "TSTAMP"] ∧
        "A" ∈ ["A", "TSTAMP"]) ∧
      "TSTAMP" ∉ commonColumnsOf [("a", "A")] ["a", "TSTAMP"] ["A", "TSTAMP"] :=
  ⟨by decide,
   (common_columns_invariant [("a", "A")] ["a", "TSTAMP"] ["A", "TSTAMP"]).1
     "A" (by decide),
   (common_columns_invariant [("a", "A")] ["a", "TSTAMP"] ["A", "TSTAMP"]).2⟩

/-- C9: `none_rule` (the `normalize_null` operation) is idempotent:
applying it twice yields the same value as applying it once, for every
input value. -/
theorem none_rule_idempotent (v : Value) :
    none_rule (none_rule v) = none_rule v := by
  have hnil : none_rule none = none := by decide
  have h : none_rule v = none ∨ none_rule v = v := by
    unfold none_rule
    split_ifs <;> simp
  rcases h with h | h
  · rw [h, hnil]
  · rw [h]
    exact h

/-- C4 (code bug): with zero matched rows and a common non-key column,
`column_overlap` evaluates `len(overlap_df.index) / len(df.index)` with
`len(df.index) = 0` and raises `ZeroDivisionError`; no "no data"
sentinel exists anywhere in the function. -/
theorem column_overlap_empty_raises :
    column_overlap [] ["id", "val"] ["id"] =
      Except.error "ZeroDivisionError" := by
  rfl

/-- C5 (code bug): the percent-variance formula of report line 340 is
`abs(src − snow) / ((src + snow) / 2) * 100` (e.g. 100% for counts 3
and 1), but with both counts zero the unguarded division raises
`ZeroDivisionError` instead of reporting a sentinel. -/
theorem percent_variance_zero_raises :
    percentVariance 0 0 = Except.error "ZeroDivisionError" ∧
      percentVariance 3 1 = Except.ok 100 := by
  refine ⟨rfl, ?_⟩
  unfold percentVariance
  norm_num

/-- C6 (code bug): `cast_int` strips leading zeros and parses, with
empty and non-numeric remainders becoming 0 — but on a null cell the
guard `x == np.nan` is `False` (`NaN != NaN`), so the code calls
`.lstrip` on a float and raises `AttributeError` instead of returning
0. -/
theorem cast_int_eval :
    cast_int (some "007") = Except.ok 7 ∧
      cast_int (some "") = Except.ok 0 ∧
      cast_int (some "abc") = Except.ok 0 ∧
      cast_int none = Except.error "AttributeError" := by
  refine ⟨rfl, rfl, rfl, rfl⟩

/-- C7 (code bug): `round_rule` maps the literal string `"None"` to
`round(0.0, 2) = 0.00` and rounds parseable values
(`round_rule("3.14159", 2) = 3.14`), but on an actual null cell the
guard `x == np.nan` is `False` (`NaN != NaN`), so the code computes
`round(float(nan), 2) = NaN` — the null marker, not 0.00. -/
theorem round_rule_eval :
    round_rule (some "None") 2 = Except.ok (some 0) ∧
      round_rule (some "3.14159") 2 = Except.ok (some (157 / 50)) ∧
      round_rule none 2 = Except.ok none := by
  refine ⟨?_, ?_, rfl⟩
  · have hp : round_rule (some "None") 2 = Except.ok (some (pyRoundTo 0 2)) :=
      rfl
    rw [hp]
    norm_num [pyRoundTo, pyRound]
  · have hp : round_rule (some "3.14159") 2 =
        Except.ok (some (pyRoundTo ((digitsToNat ['3'] : ℚ) +
          (digitsToNat ['1', '4', '1', '5', '9'] : ℚ) / 10 ^ (5 : ℕ)) 2)) :=
      rfl
    have h3 : digitsToNat ['3'] = 3 := rfl
    have h14159 : digitsToNat ['1', '4', '1', '5', '9'] = 14159 := rfl
    rw [hp, h3, h14159]
    norm_num [pyRoundTo, pyRound]

/-- C2 counterexample: for source `[{id:1},{id:2},{id:2}]` with primary
key `[id]`, `df[df.duplicated(pk)]` flags only the second `id=2` row
(pandas `keep='first'`), so the source-duplicates sequence has length 1
and does not contain both `id=2` rows as C2 claims. -/
theorem duplicate_records_counterexample :
    duplicatedRows ["id"]
        [[("id", some "1")], [("id", some "2")], [("id", some "2")]] =
      [[("id", some "2")]] ∧
      (duplicatedRows ["id"]
          [[("id", some "1")], [("id", some "2")], [("id", some "2")]]).length ≠
        2 := by
  refine ⟨rfl, by decide⟩

/-- `duplicatedAux` flags, per key `k`, every occurrence beyond the
first unless `k` was already seen, in which case all occurrences. -/
theorem duplicatedAux_countP (pk : List String) (k : List Value)
    (df : List Row) :
    ∀ seen : List (List Value),
      (duplicatedAux pk seen df).countP (fun r => decide (keyOf pk r = k)) =
        if k ∈ seen then df.countP (fun r => decide (keyOf pk r = k))
        else df.countP (fun r => decide (keyOf pk r = k)) - 1 := by
  induction df with
  | nil => intro seen; simp [duplicatedAux]
  | cons r rs ih =>
    intro seen
    unfold duplicatedAux
    by_cases hmem : keyOf pk r ∈ seen
    · rw [if_pos hmem]
      by_cases hrk : keyOf pk r = k
      · have hk : k ∈ seen := hrk ▸ hmem
        rw [List.countP_cons, List.countP_cons, ih seen, if_pos hk, if_pos hk]
      · rw [List.countP_cons, List.countP_cons, ih seen]
        simp [hrk]
    · rw [if_neg hmem, ih (keyOf pk r :: seen)]
      by_cases hrk : keyOf pk r = k
      · have hk1 : k ∈ keyOf pk r :: seen := by
          rw [hrk]; exact List.mem_cons_self _ _
        have hk2 : k ∉ seen := fun h => hmem (hrk ▸ h)
        rw [if_pos hk1, if_neg hk2, List.countP_cons]
        simp [hrk]
      · have hiff : k ∈ keyOf pk r :: seen ↔ k ∈ seen := by
          simp only [List.mem_cons, or_iff_right_iff_imp]
          intro h
          exact absurd h.symm hrk
        rw [List.countP_cons]
        by_cases hk : k ∈ seen
        · rw [if_pos (hiff.mpr hk), if_pos hk]
          simp [hrk]
        · rw [if_neg (fun h => hk (hiff.mp h)), if_neg hk]
          simp [hrk]

/-- C2 amended: per-side duplicate detection flags, for each key, all
occurrences after the first (pandas `keep='first'`), computed without
reference to the other side: for every key `k` the number of flagged
rows with key `k` is the number of rows with key `k` minus one
(truncated at zero), so a key appearing twice contributes one flagged
row. -/
theorem duplicate_records_per_key (pk : List String) (df : List Row)
    (k : List Value) :
    (duplicatedRows pk df).countP (fun r => decide (keyOf pk r = k)) =
      df.countP (fun r => decide (keyOf pk r = k)) - 1 := by
  have h := duplicatedAux_countP pk k df []
  simpa [duplicatedRows] using h

/-- C10: in the overlap analyzer a matched row that is null on both
sides counts as a disagreement — `NaN == NaN` is `False` in pandas —
so appending such a row leaves the agreement count unchanged and, when
any row agrees, strictly lowers the column's agreement ratio. -/
theorem null_cells_never_agree (matched : List (Row × Row)) (c : String) :
    cellEq none none = false ∧
      agreeCount (matched ++ [([(c, none)], [(c, none)])]) c =
        agreeCount matched c ∧
      (0 < agreeCount matched c →
        (agreeCount (matched ++ [([(c, none)], [(c, none)])]) c : ℚ) /
            (matched ++ [([(c, none)], [(c, none)])]).length <
          (agreeCount matched c : ℚ) / matched.length) := by
  have hget : getCol [(c, none)] c = none := by simp [getCol]
  have hcell :
      cellEq (getCol [(c, none)] c) (getCol [(c, none)] c) = false := by
    rw [hget]
    rfl
  have happ :
      agreeCount (matched ++ [([(c, none)], [(c, none)])]) c =
        agreeCount matched c := by
    unfold agreeCount
    rw [List.countP_append]
    simp [List.countP_cons, hcell]
  refine ⟨rfl, happ, fun hpos => ?_⟩
  rw [happ, List.length_append]
  have hlen : 0 < matched.length :=
    lt_of_lt_of_le hpos (List.countP_le_length _)
  have ha : (0 : ℚ) < agreeCount matched c := by exact_mod_cast hpos
  have hn : (0 : ℚ) < matched.length := by exact_mod_cast hlen
  have hlt : (matched.length : ℚ) < matched.length + 1 := by linarith
  have := div_lt_div_of_pos_left ha hn hlt
  simpa using this

/-- Closed witness for `null_cells_never_agree` on a one-row matched
set that agrees on column `A`. -/
theorem null_cells_never_agree_witness :
    0 < agreeCount [([("A", some "x")], [("A", some "x")])] "A" ∧
      (agreeCount ([([("A", some "x")], [("A", some "x")])] ++
            [([("A", none)], [("A", none)])]) "A" : ℚ) /
          ([([("A", some "x")], [("A", some "x")])] ++
            [([("A", none)], [("A", none)])]).length <
        (agreeCount [([("A", some "x")], [("A", some "x")])] "A" : ℚ) /
          ([([("A", some "x")], [("A", some "x")])] : List (Row × Row)).length :=
  ⟨by decide,
   (null_cells_never_agree [([("A", some "x")], [("A", some "x")])] "A").2.2
     (by decide)⟩

/-- `mapM` over `Except` succeeds pointwise. -/
theorem exceptMapM_ok {α β : Type} (f : α → Except String β) (g : α → β)
    (hf : ∀ a, f a = Except.ok (g a)) :
    ∀ l : List α, l.mapM f = Except.ok (l.map g) := by
  intro l
  induction l with
  | nil => rfl
  | cons a t ih =>
    rw [List.mapM_cons, hf a, ih]
    rfl

/-- On a nonempty matched set no division fails, and `column_overlap`
is the ascending insertion sort of the per-column percentages. -/
theorem column_overlap_ok (matched : List (Row × Row))
    (commonCols pk : List String) (h : matched.length ≠ 0) :
    column_overlap matched commonCols pk =
      Except.ok (List.insertionSort (fun p q : String × ℚ => p.2 ≤ q.2)
        ((commonCols.filter (fun c => !(pk.contains c))).map
          (fun c =>
            (c, pyRoundTo ((agreeCount matched c : ℚ) / matched.length) 2 *
              100)))) := by
  have hf : ∀ c : String,
      (do pure (c, ← columnPct matched c) : Except String (String × ℚ)) =
        Except.ok
          (c, pyRoundTo ((agreeCount matched c : ℚ) / matched.length) 2 *
            100) := by
    intro c
    unfold columnPct
    rw [if_neg h]
    rfl
  unfold column_overlap
  rw [exceptMapM_ok _ _ hf]
  rfl

/-- The matched fixture of spec §8: four matched pairs; column `A`
agrees in 3 of 4 rows, column `B` in 2 of 4. -/
def m4fix : List (Row × Row) :=
  [([("A", some "a"), ("B", some "b")], [("A", some "a"), ("B", some "b")]),
   ([("A", some "a"), ("B", some "b")], [("A", some "a"), ("B", some "x")]),
   ([("A", some "a"), ("B", some "b")], [("A", some "a"), ("B", some "b")]),
   ([("A", some "a"), ("B", some "b")], [("A", some "x"), ("B", some "y")])]

/-- C3 counterexample: on the fixture, column `A` (75%) is reported
after column `B` (50%) — ascending order places a column after, not
before, every column with lower agreement. -/
theorem column_overlap_order_counterexample :
    column_overlap m4fix ["id", "A", "B"] ["id"] =
      Except.ok [("B", 50), ("A", 75)] := by
  rw [column_overlap_ok m4fix ["id", "A", "B"] ["id"] (by decide)]
  have hfil : (["id", "A", "B"].filter (fun c => !(["id"].contains c))) =
      ["A", "B"] := by decide
  rw [hfil]
  have hA : agreeCount m4fix "A" = 3 := by decide
  have hB : agreeCount m4fix "B" = 2 := by decide
  have hlen : m4fix.length = 4 := by decide
  simp only [List.map_cons, List.map_nil, hA, hB, hlen]
  have h34 : pyRoundTo ((3 : ℚ) / 4) 2 = 3 / 4 := by
    norm_num [pyRoundTo, pyRound]
  have h12 : pyRoundTo ((1 : ℚ) / 2) 2 = 1 / 2 := by
    norm_num [pyRoundTo, pyRound]
  norm_num [List.insertionSort, List.orderedInsert, h34, h12]

instance : IsTotal (String × ℚ) (fun p q => p.2 ≤ q.2) :=
  ⟨fun a b => le_total a.2 b.2⟩

instance : IsTrans (String × ℚ) (fun p q => p.2 ≤ q.2) :=
  ⟨fun _ _ _ hab hbc => le_trans hab hbc⟩

/-- C3 amended: on a nonempty matched set, `column_overlap` reports,
per common non-key column, the ratio `agree / total` rounded to 2
decimal places before the ×100 scaling, sorted ascending by percentage
(worst first) — so a column agreeing in 3 of 4 rows yields 75.00% and
sorts after, not before, any column with lower agreement. -/
theorem column_overlap_sorted_spec (matched : List (Row × Row))
    (commonCols pk : List String) (h : matched.length ≠ 0) :
    ∃ out,
      column_overlap matched commonCols pk = Except.ok out ∧
        List.Sorted (fun p q : String × ℚ => p.2 ≤ q.2) out ∧
        (∀ p ∈ out,
          p.2 = pyRoundTo ((agreeCount matched p.1 : ℚ) / matched.length) 2 *
            100) ∧
        pyRoundTo ((3 : ℚ) / 4) 2 * 100 = 75 := by
  refine ⟨_, column_overlap_ok matched commonCols pk h,
    List.sorted_insertionSort _ _, ?_, by norm_num [pyRoundTo, pyRound]⟩
  intro p hp
  rw [List.mem_insertionSort] at hp
  obtain ⟨c, _, hcp⟩ := List.mem_map.mp hp
  rw [← hcp]

/-- Closed witness for `column_overlap_sorted_spec` on the §8
fixture. -/
theorem column_overlap_sorted_spec_witness :
    m4fix.length ≠ 0 ∧
      ∃ out,
        column_overlap m4fix ["id", "A", "B"] ["id"] = Except.ok out ∧
          List.Sorted (fun p q : String × ℚ => p.2 ≤ q.2) out ∧
          (∀ p ∈ out,
            p.2 = pyRoundTo ((agreeCount m4fix p.1 : ℚ) / m4fix.length) 2 *
              100) ∧
          pyRoundTo ((3 : ℚ) / 4) 2 * 100 = 75 :=
  ⟨by decide, column_overlap_sorted_spec m4fix ["id", "A", "B"] ["id"]
    (by decide)⟩

/-- C1 counterexample: source `[{id:1},{id:1}]` against reference
`[{id:1}]` — the cross-product join yields 2 matched pairs and no
reference-only row, so `|matched| + |reference-only| = 2 ≠ 1 =
|reference_dataset|`: the partition identity fails in the presence of
duplicate matched keys. -/
theorem join_partition_counterexample :
    (mergedBoth ["id"] [[("id", some "1")], [("id", some "1")]]
          [[("id", some "1")]]).length +
        (rightOnly ["id"] [[("id", some "1")], [("id", some "1")]]
          [[("id", some "1")]]).length ≠
      ([[("id", some "1")]] : List Row).length := by
  decide

/-- The merged `both` partition has one pair per source row and
matching reference row. -/
theorem mergedBoth_length (pk : List String) (src snow : List Row) :
    (mergedBoth pk src snow).length =
      (src.map (fun r => snow.countP (keyEq pk r))).sum := by
  simp [mergedBoth, List.length_flatMap, List.countP_eq_length_filter,
    Function.comp_def, List.length_map]

/-- Double counting: matched pairs counted from the source side equal
matched pairs counted from the reference side. -/
theorem sum_countP_comm (pk : List String) (src snow : List Row) :
    (src.map (fun r => snow.countP (keyEq pk r))).sum =
      (snow.map (fun s => src.countP (fun r => keyEq pk r s))).sum := by
  induction src with
  | nil => simp
  | cons r t ih =>
    simp only [List.map_cons, List.sum_cons, ih]
    clear ih
    induction snow with
    | nil => simp
    | cons s u ihs =>
      simp only [List.countP_cons, List.map_cons, List.sum_cons] at ihs ⊢
      by_cases hb : keyEq pk r s = true <;> simp [hb] at ihs ⊢ <;> omega

/-- A list where each element is matched at most once splits into
matched and unmatched counts. -/
theorem countP_partition {α : Type} (l : List α) (c : α → ℕ)
    (h : ∀ x ∈ l, c x ≤ 1) :
    (l.map c).sum + l.countP (fun x => decide (c x = 0)) = l.length := by
  induction l with
  | nil => simp
  | cons a t ih =>
    have ha := h a (List.mem_cons_self a t)
    have ht : ∀ x ∈ t, c x ≤ 1 := fun x hx => h x (List.mem_cons_of_mem a hx)
    simp only [List.map_cons, List.sum_cons, List.countP_cons,
      List.length_cons]
    rw [← ih ht]
    by_cases hca : c a = 0 <;> simp [hca] <;> omega

/-- `any` is false exactly when the count is zero. -/
theorem not_any_eq_countP_zero {α : Type} (l : List α) (p : α → Bool) :
    (!(l.any p)) = decide (l.countP p = 0) := by
  by_cases hz : l.countP p = 0
  · have hfalse : l.any p = false :=
      List.any_eq_false.mpr (by simpa using List.countP_eq_zero.mp hz)
    simp [hfalse, hz]
  · have htrue : l.any p = true := by
      rw [List.any_eq_true]
      by_contra hno
      push_neg at hno
      exact hz (List.countP_eq_zero.mpr (by simpa using hno))
    simp [htrue, hz]

/-- The `left_only` partition counts source rows with zero matches. -/
theorem leftOnly_length (pk : List String) (src snow : List Row) :
    (leftOnly pk src snow).length =
      src.countP (fun r => decide (snow.countP (keyEq pk r) = 0)) := by
  unfold leftOnly
  simp only [not_any_eq_countP_zero, ← List.countP_eq_length_filter]

/-- The `right_only` partition counts reference rows with zero
matches. -/
theorem rightOnly_length (pk : List String) (src snow : List Row) :
    (rightOnly pk src snow).length =
      snow.countP (fun s => decide (src.countP (fun r => keyEq pk r s) = 0)) := by
  unfold rightOnly
  simp only [not_any_eq_countP_zero, ← List.countP_eq_length_filter]

/-- C1 amended: the outer-join partition satisfies
`|matched| + |source-only| = |source_dataset|` and
`|matched| + |reference-only| = |reference_dataset|` provided every
key present on both sides occurs at most once on the opposite side
(duplicates confined to one-sided keys are fine); with a duplicated
matched key the cross-product join inflates `|matched|` and the
identity for the opposite side fails. -/
theorem join_partition_counts (pk : List String) (src snow : List Row)
    (hsrc : src.all (fun r => snow.countP (keyEq pk r) ≤ 1) = true)
    (hsnow : snow.all (fun s => src.countP (fun r => keyEq pk r s) ≤ 1) = true) :
    (mergedBoth pk src snow).length + (leftOnly pk src snow).length =
        src.length ∧
      (mergedBoth pk src snow).length + (rightOnly pk src snow).length =
        snow.length := by
  have h1 : ∀ r ∈ src, snow.countP (keyEq pk r) ≤ 1 := by
    rw [List.all_eq_true] at hsrc
    intro r hr
    simpa using hsrc r hr
  have h2 : ∀ s ∈ snow, src.countP (fun r => keyEq pk r s) ≤ 1 := by
    rw [List.all_eq_true] at hsnow
    intro s hs
    simpa using hsnow s hs
  constructor
  · rw [mergedBoth_length, leftOnly_length]
    exact countP_partition src _ h1
  · rw [mergedBoth_length, sum_countP_comm, rightOnly_length]
    exact countP_partition snow _ h2

/-- The end-to-end fixture of spec §8: source
`[{id:1},{id:2},{id:2}]`, reference `[{id:1},{id:3}]`. -/
def fixSrc : List Row :=
  [[("id", some "1")], [("id", some "2")], [("id", some "2")]]

def fixSnow : List Row :=
  [[("id", some "1")], [("id", some "3")]]

/-- Closed witness for `join_partition_counts` on the §8 fixture:
1 matched pair + 2 source-only = 3 source rows, 1 matched pair +
1 reference-only = 2 reference rows. -/
theorem join_partition_counts_witness :
    (fixSrc.all (fun r => fixSnow.countP (keyEq ["id"] r) ≤ 1) = true) ∧
      (fixSnow.all (fun s => fixSrc.countP (fun r => keyEq ["id"] r s) ≤ 1) =
        true) ∧
      ((mergedBoth ["id"] fixSrc fixSnow).length +
            (leftOnly ["id"] fixSrc fixSnow).length = fixSrc.length ∧
        (mergedBoth ["id"] fixSrc fixSnow).length +
            (rightOnly ["id"] fixSrc fixSnow).length = fixSnow.length) :=
  ⟨by decide, by decide,
   join_partition_counts ["id"] fixSrc fixSnow (by decide) (by decide)⟩
